import Mathlib

/-!
Shallow embedding of the QR-code generator of this repository
(src/components/Generator.tsx and the app-level scan handler), with
theorems checking the specification's claims about it.

Numbers that JavaScript treats as IEEE doubles appear here as rationals
(`ℚ`): every arithmetic expression the embedded code performs is exact in
the source's value range, so the rational semantics coincides with the
float semantics there. `Math.floor` / `Math.ceil` become `Int.floor` /
`Int.ceil`.
-/

namespace MaskQR

/-! ### Data model (types from Generator.tsx) -/

inductive DotStyle
  | square | rounded | dots | extraRounded | classy | classyInverted | diamond | cross
  deriving DecidableEq, Repr

inductive EyeStyle
  | square | circle | rounded | leaf
  deriving DecidableEq, Repr

inductive ColorMode
  | solid | gradient
  deriving DecidableEq, Repr

inductive GradientType
  | vertical | horizontal | diagonal | radial
  deriving DecidableEq, Repr

inductive ErrorLevel
  | L | M | Q | H
  deriving DecidableEq, Repr

inductive Encryption
  | WPA | WEP | nopass
  deriving DecidableEq, Repr

inductive LabelPos
  | top | bottom
  deriving DecidableEq, Repr

inductive LogoShape
  | none | circle | rounded | square
  deriving DecidableEq, Repr

/-! ### Fill resolver (`getFillStyle`, Generator.tsx lines 162-179)

A canvas paint style is either a plain color string or a gradient; a
gradient is recorded by the exact constructor arguments the code passes to
`createLinearGradient` / `createRadialGradient` plus its two color
stops. -/

structure LinearGradientSpec where
  x0 : ℚ
  y0 : ℚ
  x1 : ℚ
  y1 : ℚ
  stop0 : String
  stop1 : String
  deriving DecidableEq, Repr

structure RadialGradientSpec where
  cx0 : ℚ
  cy0 : ℚ
  r0 : ℚ
  cx1 : ℚ
  cy1 : ℚ
  r1 : ℚ
  stop0 : String
  stop1 : String
  deriving DecidableEq, Repr

inductive PaintStyle
  | color (c : String)
  | linear (g : LinearGradientSpec)
  | radial (g : RadialGradientSpec)
  deriving DecidableEq, Repr

def getFillStyle (width height : ℚ) (mode : ColorMode) (type : GradientType)
    (c1 c2 : String) : PaintStyle :=
  if mode = ColorMode.solid then PaintStyle.color c1
  else
    match type with
    | GradientType.vertical => PaintStyle.linear ⟨0, 0, 0, height, c1, c2⟩
    | GradientType.horizontal => PaintStyle.linear ⟨0, 0, width, 0, c1, c2⟩
    | GradientType.diagonal => PaintStyle.linear ⟨0, 0, width, height, c1, c2⟩
    | GradientType.radial =>
        PaintStyle.radial
          ⟨width / 2, height / 2, width / 10, width / 2, height / 2,
            max width height * (8 / 10), c1, c2⟩

/-! ### Geometry (Generator.tsx lines 394-427) -/

def margin : ℕ := 2

/-- `cellSize = size / (moduleCount + margin * 2)` (line 398). -/
def cellSize (moduleCount : ℕ) (size : ℚ) : ℚ :=
  size / ((moduleCount : ℚ) + (margin : ℚ) * 2)

structure Geometry where
  totalWidth : ℚ
  totalHeight : ℚ
  extraHeight : ℚ
  qrOffsetY : ℚ
  deriving DecidableEq, Repr

/-- Lines 400-427: `scaleFactor = qrSize / 1000`,
`renderLabelSize = labelSize * scaleFactor`, a label band of
`renderLabelSize * 2.5` is added when `labelText` is non-empty, and the QR
block is shifted down by the band exactly when the label sits on top. -/
def planGeometry (size : ℚ) (labelText : String) (labelSize : ℚ)
    (labelPosition : LabelPos) : Geometry :=
  let scaleFactor := size / 1000
  let renderLabelSize := labelSize * scaleFactor
  let extraHeight := if labelText ≠ "" then renderLabelSize * (5 / 2) else 0
  let qrOffsetY :=
    if labelText ≠ "" ∧ labelPosition = LabelPos.top then extraHeight else 0
  { totalWidth := size
    totalHeight := size + extraHeight
    extraHeight := extraHeight
    qrOffsetY := qrOffsetY }

/-! ### Logo exclusion bounds (Generator.tsx lines 434-447) -/

/-- `logoSize` is fixed at 25 (line 73); `logoScale = logoSize / 100`. -/
def logoScale : ℚ := 25 / 100

/-- `Math.ceil((size * logoScale) / cellSize)` (line 441). -/
def logoModuleCount (moduleCount : ℕ) (size : ℚ) : ℤ :=
  Int.ceil ((size * logoScale) / cellSize moduleCount size)

/-- Line 443: bump an even module count to the next odd one. -/
def adjustedLogoCount (moduleCount : ℕ) (size : ℚ) : ℤ :=
  let lms := logoModuleCount moduleCount size
  if lms % 2 = 0 then lms + 1 else lms

/-- `logoStart = Math.floor(center - adjustedSize / 2)` with
`center = moduleCount / 2` (lines 440, 445). -/
def logoStart (moduleCount : ℕ) (size : ℚ) : ℤ :=
  Int.floor ((moduleCount : ℚ) / 2 - (adjustedLogoCount moduleCount size : ℚ) / 2)

/-- `logoEnd = Math.ceil(center + adjustedSize / 2)` (line 446). -/
def logoEnd (moduleCount : ℕ) (size : ℚ) : ℤ :=
  Int.ceil ((moduleCount : ℚ) / 2 + (adjustedLogoCount moduleCount size : ℚ) / 2)

/-! ### Error-correction policy on logo attach/remove
(Generator.tsx lines 146-160 and the remove-logo onClick, lines 980-989) -/

/-- `handleLogoUpload`: after a successful read, if the level is `L` or `M`
it becomes `H`, otherwise it is left alone. -/
def attachLogoLevel (l : ErrorLevel) : ErrorLevel :=
  if l = ErrorLevel.L ∨ l = ErrorLevel.M then ErrorLevel.H else l

/-- The remove-logo button runs `setErrorLevel('M')` unconditionally. -/
def removeLogoLevel (_ : ErrorLevel) : ErrorLevel := ErrorLevel.M

/-! ### Content-template assembler (Generator.tsx lines 113-143, wifi case) -/

def encName : Encryption → String
  | Encryption.WPA => "WPA"
  | Encryption.WEP => "WEP"
  | Encryption.nopass => "nopass"

/-- The `wifi` branch of the template `useEffect` (lines 122-128): with an
empty ssid `newText` stays `''`; otherwise the template literal is built
with `enc = ''` for `nopass` and JavaScript's `${hidden}` printing the
boolean as `true` / `false`. -/
def assembleWifi (ssid password : String) (encryption : Encryption)
    (hidden : Bool) : String :=
  if ssid ≠ "" then
    let enc := if encryption = Encryption.nopass then "" else encName encryption
    "WIFI:T:" ++ enc ++ ";S:" ++ ssid ++ ";P:" ++ password ++ ";H:" ++
      (if hidden then "true" else "false") ++ ";;"
  else ""

/-! ### The rendering pass of `generateQR` (Generator.tsx lines 380-538)

The canvas is modelled as the ordered list of drawing operations issued on
it; each operation records the arguments that determine what it paints.
`RenderOutcome` distinguishes the three exits of `generateQR`: the empty
content early-return, which sets the generated base64 output to `''` and
draws nothing (`cleared`); the `catch` branch, which logs and leaves the
output untouched — entered when `QRCode.create` throws, and also when the
logo `drawImage` at line 512 is reached with a broken image element, since
the HTML canvas usability check makes that call throw `InvalidStateError`
(`errored`); and normal completion, which issues the listed operations and
sets the output from `canvas.toDataURL` (`rendered`). -/

inductive Op
  | fillBackground (style : PaintStyle)
  | drawModuleAt (r c : ℕ) (style : DotStyle)
  | drawFinder (i : ℕ) (style : EyeStyle)
  | drawLogo
  | drawLabel (text : String) (pos : LabelPos)
  deriving DecidableEq, Repr

/-- The finder-zone test of the data-module loop (lines 458-461):
`(r < 7 && c < 7) || (r < 7 && c >= N-7) || (r >= N-7 && c < 7)`.
`N - 7` is truncated subtraction, which agrees with the JavaScript
comparison for every matrix the encoder produces (N ≥ 21), and also for
N < 7 where both make the test always true. -/
def isFinderPattern (moduleCount r c : ℕ) : Prop :=
  (r < 7 ∧ c < 7) ∨ (r < 7 ∧ moduleCount - 7 ≤ c) ∨ (moduleCount - 7 ≤ r ∧ c < 7)

instance (moduleCount r c : ℕ) : Decidable (isFinderPattern moduleCount r c) := by
  unfold isFinderPattern
  infer_instance

/-- The data-module double loop (lines 449-471): row-major over the matrix,
skipping first the logo quiet zone (only when a logo is present), then the
three finder zones, and issuing a `drawModule` call exactly for the
remaining "on" modules. -/
def dataModuleOps (moduleCount : ℕ) (get : ℕ → ℕ → Bool) (logoPresent : Bool)
    (lS lE : ℤ) (style : DotStyle) : List Op :=
  (List.range moduleCount).flatMap fun (r : ℕ) =>
    (List.range moduleCount).filterMap fun (c : ℕ) =>
      if logoPresent ∧ lS ≤ (r : ℤ) ∧ (r : ℤ) < lE ∧ lS ≤ (c : ℤ) ∧ (c : ℤ) < lE then
        none
      else if isFinderPattern moduleCount r c then none
      else if get r c then some (Op.drawModuleAt r c style) else none

structure RenderConfig where
  text : String
  errorLevel : ErrorLevel
  qrSize : ℚ
  bgMode : ColorMode
  bgType : GradientType
  bgC1 : String
  bgC2 : String
  fgMode : ColorMode
  fgType : GradientType
  fgC1 : String
  fgC2 : String
  dotStyle : DotStyle
  eyeStyle : EyeStyle
  logo : Bool
  logoShape : LogoShape
  labelText : String
  labelPosition : LabelPos
  labelSize : ℚ
  deriving Repr

inductive RenderOutcome
  | cleared
  | errored
  | rendered (ops : List Op)
  deriving DecidableEq, Repr

/-- The drawing operations of a completed (non-throwing) run of
`generateQR`, in the order the code issues them: background fill (lines
419-422), data-module loop (449-471), the three finder patterns (473-476),
the logo `drawImage` when a logo is attached and its image decoded
(479-514), and the label text (516-532). -/
def renderedOps (moduleCount : ℕ) (get : ℕ → ℕ → Bool) (cfg : RenderConfig) :
    List Op :=
  let size := cfg.qrSize
  let geo := planGeometry size cfg.labelText cfg.labelSize cfg.labelPosition
  let lS := if cfg.logo then logoStart moduleCount size else -1
  let lE := if cfg.logo then logoEnd moduleCount size else -1
  [Op.fillBackground
      (getFillStyle geo.totalWidth geo.totalHeight cfg.bgMode cfg.bgType
        cfg.bgC1 cfg.bgC2)]
    ++ dataModuleOps moduleCount get cfg.logo lS lE cfg.dotStyle
    ++ [Op.drawFinder 0 cfg.eyeStyle, Op.drawFinder 1 cfg.eyeStyle,
        Op.drawFinder 2 cfg.eyeStyle]
    ++ (if cfg.logo then [Op.drawLogo] else [])
    ++ (if cfg.labelText ≠ "" then
          [Op.drawLabel cfg.labelText cfg.labelPosition]
        else [])

/-- `generateQR` (lines 380-538). The QR encoder is an external library;
its output matrix is the parameter `get` over side `moduleCount`, and
`encodeOk` records whether `QRCode.create` returned (rather than threw,
which lands in the `catch`). `logoLoaded` records how the one-shot image
load promise resolved: `onerror` resolves it with `false` and the code
proceeds to `ctx.drawImage` on the broken element, which throws
`InvalidStateError` and lands in the `catch` before the label is drawn or
`setGeneratedBase64` is called. -/
def render (moduleCount : ℕ) (get : ℕ → ℕ → Bool) (encodeOk : Bool)
    (cfg : RenderConfig) (logoLoaded : Bool) : RenderOutcome :=
  if cfg.text = "" then RenderOutcome.cleared
  else if ¬ encodeOk then RenderOutcome.errored
  else if cfg.logo ∧ ¬ logoLoaded then RenderOutcome.errored
  else RenderOutcome.rendered (renderedOps moduleCount get cfg)

/-! ### Scan-history update (App component, `handleScan`) -/

structure ScanEntry where
  id : String
  data : String
  timestamp : ℤ
  deriving DecidableEq, Repr

/-- The `setScannedHistory` updater inside `handleScan`:
`if (prev.length > 0 && prev[0].data === data && (Date.now() - prev[0].timestamp < 2000)) return prev; return [newScan, ...prev]`.
`now` is the `Date.now()` of the duplicate check. -/
def updateScanHistory (newScan : ScanEntry) (now : ℤ) :
    List ScanEntry → List ScanEntry
  | [] => [newScan]
  | p :: rest =>
      if p.data = newScan.data ∧ now - p.timestamp < 2000 then p :: rest
      else newScan :: p :: rest

/-- The initial style state of the Generator component (lines 56-84),
with empty content. -/
def baseConfig : RenderConfig :=
  { text := ""
    errorLevel := ErrorLevel.M
    qrSize := 1000
    bgMode := ColorMode.solid
    bgType := GradientType.diagonal
    bgC1 := "#ffffff"
    bgC2 := "#e2e8f0"
    fgMode := ColorMode.solid
    fgType := GradientType.vertical
    fgC1 := "#000000"
    fgC2 := "#a3e635"
    dotStyle := DotStyle.square
    eyeStyle := EyeStyle.square
    logo := false
    logoShape := LogoShape.rounded
    labelText := ""
    labelPosition := LabelPos.bottom
    labelSize := 60 }

/-- A configuration with content and a logo attached. -/
def logoConfig : RenderConfig :=
  { baseConfig with text := "hello", logo := true }

/-! ### Helper lemmas -/

/-- Line 443 always yields an odd count: an even `logoModuleSize` is bumped
by one, an odd one is kept. -/
theorem adjustedLogoCount_odd (moduleCount : ℕ) (size : ℚ) :
    Odd (adjustedLogoCount moduleCount size) := by
  unfold adjustedLogoCount
  by_cases h : logoModuleCount moduleCount size % 2 = 0
  · rw [if_pos h]
    exact (Int.even_iff.mpr h).add_one
  · rw [if_neg h]
    exact Int.odd_iff.mpr ((Int.emod_two_eq _).resolve_left h)

/-! ### Claims -/

/-- Claim C5: the cell size computed by `generateQR` satisfies
`cellSize * (N + 2 * M) = outputSize` exactly, as rationals, for every
module count `N` and output size, with the fixed margin `M = 2`. -/
theorem cellSize_mul_span (moduleCount : ℕ) (outputSize : ℚ) :
    cellSize moduleCount outputSize * ((moduleCount : ℚ) + 2 * (margin : ℚ)) =
      outputSize := by
  have h : (moduleCount : ℚ) + (margin : ℚ) * 2 ≠ 0 := by
    unfold margin
    push_cast
    positivity
  unfold cellSize
  rw [show (moduleCount : ℚ) + 2 * (margin : ℚ) =
      (moduleCount : ℚ) + (margin : ℚ) * 2 by ring]
  exact div_mul_cancel₀ outputSize h

/-- Claim C3: a successful logo upload upgrades error level `L` or `M` to
`H` and leaves `Q` and `H` unchanged; removing the logo sets the level to
`M` unconditionally. -/
theorem logo_error_level_policy :
    attachLogoLevel ErrorLevel.L = ErrorLevel.H ∧
    attachLogoLevel ErrorLevel.M = ErrorLevel.H ∧
    attachLogoLevel ErrorLevel.Q = ErrorLevel.Q ∧
    attachLogoLevel ErrorLevel.H = ErrorLevel.H ∧
    ∀ l, removeLogoLevel l = ErrorLevel.M :=
  ⟨by decide, by decide, by decide, by decide, fun _ => rfl⟩

/-- Claim C9: in solid mode `getFillStyle` returns the first color for
every width, height and gradient orientation; the result is independent of
the second color. -/
theorem solid_mode_ignores_second_color (width height : ℚ)
    (type : GradientType) (c1 c2 c2' : String) :
    getFillStyle width height ColorMode.solid type c1 c2 =
      getFillStyle width height ColorMode.solid type c1 c2' ∧
    getFillStyle width height ColorMode.solid type c1 c2 =
      PaintStyle.color c1 := by
  exact ⟨by simp [getFillStyle], by simp [getFillStyle]⟩

/-- Claim C4: for a non-empty ssid, the WiFi template assembles exactly
`WIFI:T:<enc>;S:<ssid>;P:<password>;H:<hidden>;;`, with `<enc>` empty for
`nopass`; in particular the Home/secret1/WPA/hidden-false instance yields
the literal expected string. -/
theorem wifi_template_format (ssid password : String)
    (encryption : Encryption) (hidden : Bool) (hssid : ssid ≠ "") :
    assembleWifi ssid password encryption hidden =
      "WIFI:T:" ++
        (if encryption = Encryption.nopass then "" else encName encryption) ++
        ";S:" ++ ssid ++ ";P:" ++ password ++ ";H:" ++
        (if hidden then "true" else "false") ++ ";;" ∧
    assembleWifi "Home" "secret1" Encryption.WPA false =
      "WIFI:T:WPA;S:Home;P:secret1;H:false;;" := by
  refine ⟨?_, by decide⟩
  simp [assembleWifi, hssid]

/-- Witness for C4 at ssid `Home`. -/
theorem wifi_template_format_witness :
    assembleWifi "Home" "secret1" Encryption.WPA false =
      "WIFI:T:" ++
        (if Encryption.WPA = Encryption.nopass then ""
          else encName Encryption.WPA) ++
        ";S:" ++ "Home" ++ ";P:" ++ "secret1" ++ ";H:" ++
        (if false then "true" else "false") ++ ";;" ∧
    assembleWifi "Home" "secret1" Encryption.WPA false =
      "WIFI:T:WPA;S:Home;P:secret1;H:false;;" :=
  wifi_template_format "Home" "secret1" Encryption.WPA false (by decide)

/-- Claim C2: for every odd module count and every output size, the logo
exclusion range `[logoStart, logoEnd)` has odd length and is symmetric
about the central module index: `logoStart + logoEnd = N`, i.e. its
midpoint is `(N - 1) / 2`. -/
theorem logo_zone_odd_and_centered (moduleCount : ℕ) (size : ℚ)
    (hodd : Odd moduleCount) :
    Odd (logoEnd moduleCount size - logoStart moduleCount size) ∧
    logoStart moduleCount size + logoEnd moduleCount size = moduleCount := by
  obtain ⟨b, hb⟩ := hodd
  obtain ⟨t, ht⟩ := adjustedLogoCount_odd moduleCount size
  have hstart : logoStart moduleCount size = (b : ℤ) - t := by
    unfold logoStart
    have hq : (moduleCount : ℚ) / 2 - (adjustedLogoCount moduleCount size : ℚ) / 2
        = (((b : ℤ) - t : ℤ) : ℚ) := by
      rw [ht, hb]
      push_cast
      ring
    rw [hq, Int.floor_intCast]
  have hend : logoEnd moduleCount size = (b : ℤ) + t + 1 := by
    unfold logoEnd
    have hq : (moduleCount : ℚ) / 2 + (adjustedLogoCount moduleCount size : ℚ) / 2
        = (((b : ℤ) + t + 1 : ℤ) : ℚ) := by
      rw [ht, hb]
      push_cast
      ring
    rw [hq, Int.ceil_intCast]
  constructor
  · rw [hstart, hend]
    exact ⟨t, by ring⟩
  · rw [hstart, hend, hb]
    push_cast
    ring

/-- Witness for C2 at the version-1 matrix side 21 and output size 1000. -/
theorem logo_zone_odd_and_centered_witness :
    Odd (logoEnd 21 1000 - logoStart 21 1000) ∧
    logoStart 21 1000 + logoEnd 21 1000 = 21 :=
  logo_zone_odd_and_centered 21 1000 (by decide)

/-- Claim C10: a new scan whose payload equals the head entry's payload and
arrives within 2000 ms of that entry's timestamp leaves the history
unchanged; in every other situation it is prepended. Consequently two
consecutive scans of the same code within two seconds yield the same
history as one. -/
theorem duplicate_scan_suppression (scan : ScanEntry) (now : ℤ)
    (prev : List ScanEntry) :
    (∀ p rest, prev = p :: rest → p.data = scan.data →
        now - p.timestamp < 2000 → updateScanHistory scan now prev = prev) ∧
    (∀ p rest, prev = p :: rest →
        ¬ (p.data = scan.data ∧ now - p.timestamp < 2000) →
        updateScanHistory scan now prev = scan :: prev) ∧
    (prev = [] → updateScanHistory scan now prev = [scan]) ∧
    (∀ scan2 now2, scan2.data = scan.data → now2 - scan.timestamp < 2000 →
        updateScanHistory scan2 now2 (scan :: prev) = scan :: prev) := by
  refine ⟨?_, ?_, ?_, ?_⟩
  · rintro p rest rfl hdata ht
    simp only [updateScanHistory]
    rw [if_pos ⟨hdata, ht⟩]
  · rintro p rest rfl hcond
    simp only [updateScanHistory]
    rw [if_neg hcond]
  · rintro rfl
    rfl
  · intro scan2 now2 hdata ht
    simp only [updateScanHistory]
    rw [if_pos ⟨hdata.symm, ht⟩]

/-- Witness for C10: a repeat of payload `"hello"` 1400 ms after the head
entry is suppressed. -/
theorem duplicate_scan_suppression_witness :
    updateScanHistory ⟨"b", "hello", 1500⟩ 1500 [⟨"a", "hello", 100⟩] =
      [⟨"a", "hello", 100⟩] :=
  (duplicate_scan_suppression ⟨"b", "hello", 1500⟩ 1500
      [⟨"a", "hello", 100⟩]).1 ⟨"a", "hello", 100⟩ [] rfl rfl (by decide)

/-- Claim C1: the data-module loop of `generateQR` never issues a
`drawModule` call for an index inside one of the three 7×7 finder-pattern
corner zones, whatever the matrix contents, dot style, or logo bounds. -/
theorem data_loop_skips_finder_zones (moduleCount : ℕ) (get : ℕ → ℕ → Bool)
    (logoPresent : Bool) (lS lE : ℤ) (style : DotStyle) (r c : ℕ)
    (h : Op.drawModuleAt r c style ∈
      dataModuleOps moduleCount get logoPresent lS lE style) :
    ¬ isFinderPattern moduleCount r c := by
  unfold dataModuleOps at h
  simp only [List.mem_flatMap, List.mem_range, List.mem_filterMap] at h
  obtain ⟨r', _, c', _, hop⟩ := h
  split_ifs at hop with h1 h2 h3
  rw [Option.some_inj] at hop
  injection hop with hr hc hs
  subst hr
  subst hc
  exact h2

/-- Witness for C1: on an 8×8 all-on matrix, the module (7, 7) is drawn
and lies outside every finder zone. -/
theorem data_loop_skips_finder_zones_witness :
    Op.drawModuleAt 7 7 DotStyle.square ∈
      dataModuleOps 8 (fun _ _ => true) false 0 0 DotStyle.square ∧
    ¬ isFinderPattern 8 7 7 :=
  ⟨by decide,
    data_loop_skips_finder_zones 8 (fun _ _ => true) false 0 0
      DotStyle.square 7 7 (by decide)⟩

/-- Claim C6: the label band. The canvas width always stays `size` and the
QR region keeps an undistorted `size × size` square
(`totalHeight - extraHeight = size`); with a non-empty label the band adds
exactly `2.5 * (labelSize * size / 1000)` to the height; with no label the
band is 0 and there is no shift; with a label, the QR region is shifted
down by exactly the band height iff the label position is `top`. -/
theorem label_band_geometry (size labelSize : ℚ) (labelText : String)
    (pos : LabelPos) (hsize : 0 < size) (hlabel : 0 < labelSize) :
    (planGeometry size labelText labelSize pos).totalWidth = size ∧
    (planGeometry size labelText labelSize pos).totalHeight -
        (planGeometry size labelText labelSize pos).extraHeight = size ∧
    (labelText ≠ "" →
      (planGeometry size labelText labelSize pos).extraHeight =
        labelSize * (size / 1000) * (5 / 2) ∧
      (planGeometry size labelText labelSize pos).totalHeight =
        size + labelSize * (size / 1000) * (5 / 2)) ∧
    (labelText = "" →
      (planGeometry size labelText labelSize pos).extraHeight = 0 ∧
      (planGeometry size labelText labelSize pos).qrOffsetY = 0) ∧
    (labelText ≠ "" →
      ((planGeometry size labelText labelSize pos).qrOffsetY =
          (planGeometry size labelText labelSize pos).extraHeight ↔
        pos = LabelPos.top)) := by
  have hTW : (planGeometry size labelText labelSize pos).totalWidth = size := rfl
  have hEH : (planGeometry size labelText labelSize pos).extraHeight =
      (if labelText ≠ "" then labelSize * (size / 1000) * (5 / 2) else 0) := rfl
  have hTH : (planGeometry size labelText labelSize pos).totalHeight =
      size + (if labelText ≠ "" then labelSize * (size / 1000) * (5 / 2) else 0) :=
    rfl
  have hQY : (planGeometry size labelText labelSize pos).qrOffsetY =
      (if labelText ≠ "" ∧ pos = LabelPos.top then
        (if labelText ≠ "" then labelSize * (size / 1000) * (5 / 2) else 0)
      else 0) := rfl
  refine ⟨hTW, ?_, fun hl => ?_, fun hl => ?_, fun hl => ?_⟩
  · rw [hTH, hEH]
    ring
  · rw [hEH, hTH, if_pos hl]
    exact ⟨rfl, rfl⟩
  · have hne : ¬ (labelText ≠ "") := not_not_intro hl
    rw [hEH, hQY, if_neg hne, if_neg (fun h => hne h.1)]
    exact ⟨rfl, rfl⟩
  · have hband : labelSize * (size / 1000) * (5 / 2) ≠ 0 := by positivity
    cases pos with
    | top =>
        rw [hQY, hEH, if_pos hl, if_pos ⟨hl, rfl⟩]
        simp
    | bottom =>
        rw [hQY, hEH, if_pos hl,
          if_neg (fun h => LabelPos.noConfusion h.2)]
        exact iff_of_false (fun h0 => hband h0.symm)
          (fun h => LabelPos.noConfusion h)

/-- Witness for C6 at size 1000, label size 60, label `Scan me`, top. -/
theorem label_band_geometry_witness :
    (planGeometry 1000 "Scan me" 60 LabelPos.top).totalWidth = 1000 ∧
    (planGeometry 1000 "Scan me" 60 LabelPos.top).totalHeight -
        (planGeometry 1000 "Scan me" 60 LabelPos.top).extraHeight = 1000 ∧
    ("Scan me" ≠ "" →
      (planGeometry 1000 "Scan me" 60 LabelPos.top).extraHeight =
        60 * ((1000 : ℚ) / 1000) * (5 / 2) ∧
      (planGeometry 1000 "Scan me" 60 LabelPos.top).totalHeight =
        1000 + 60 * ((1000 : ℚ) / 1000) * (5 / 2)) ∧
    (("Scan me" : String) = "" →
      (planGeometry 1000 "Scan me" 60 LabelPos.top).extraHeight = 0 ∧
      (planGeometry 1000 "Scan me" 60 LabelPos.top).qrOffsetY = 0) ∧
    ("Scan me" ≠ "" →
      ((planGeometry 1000 "Scan me" 60 LabelPos.top).qrOffsetY =
          (planGeometry 1000 "Scan me" 60 LabelPos.top).extraHeight ↔
        LabelPos.top = LabelPos.top)) :=
  label_band_geometry 1000 60 "Scan me" LabelPos.top (by norm_num) (by norm_num)

/-- Claim C8: with an empty content string, `generateQR` takes the early
return that sets the generated output to `''` and draws nothing — a normal
exit, distinct from the error (`catch`) exit — regardless of every other
input. -/
theorem empty_content_clears_output (moduleCount : ℕ) (get : ℕ → ℕ → Bool)
    (encodeOk : Bool) (cfg : RenderConfig) (logoLoaded : Bool)
    (h : cfg.text = "") :
    render moduleCount get encodeOk cfg logoLoaded = RenderOutcome.cleared ∧
    render moduleCount get encodeOk cfg logoLoaded ≠ RenderOutcome.errored := by
  unfold render
  rw [if_pos h]
  exact ⟨rfl, by simp⟩

/-- Witness for C8 on the initial configuration (empty text). -/
theorem empty_content_clears_output_witness :
    render 21 (fun _ _ => false) false baseConfig true =
      RenderOutcome.cleared ∧
    render 21 (fun _ _ => false) false baseConfig true ≠
      RenderOutcome.errored :=
  empty_content_clears_output 21 (fun _ _ => false) false baseConfig true rfl

/-- Claim C7 fails on the code: with non-empty content and an attached
logo whose image failed to load, `generateQR` reaches `ctx.drawImage` on a
broken image element, the call throws, and execution lands in the `catch`
— the label is never drawn and the base64 output is never set — whereas
the same configuration with a successful load completes normally and
produces the output operations. Evaluated here at the failing input. -/
theorem logo_load_failure_reaches_catch :
    render 21 (fun _ _ => false) true logoConfig false =
      RenderOutcome.errored ∧
    render 21 (fun _ _ => false) true logoConfig true =
      RenderOutcome.rendered (renderedOps 21 (fun _ _ => false) logoConfig) := by
  constructor
  · rfl
  · rfl

end MaskQR